import Mathlib

/-!
Verification development for `scripts/ml_pivot.py` (ml_tools repository).

The tool edits the rotate pivot of an animated Maya transform node while
preserving its world-space motion.  Two complementary shallow embeddings are
developed here:

* a kinematic model (`Vec3`, `Mat3`, `XForm`) of the scene-graph mathematics
  underlying `EditPivotContext.bakePivot` (lines 280-315), with the external
  baking routine `utl.matchBake` modelled from the specification, since
  `ml_utilities.py` is not part of the sources;
* a control-flow model (`Scene`, `Effect`) of the command handlers
  (`editPivot`, `bakePivot`, `reset_pivot`, `doEditPivotDriver`, `cleanup`,
  the Qt event filter and the UI), recording every host call in an effect
  trace so that early returns, warnings and baking flags can be analysed.
-/

namespace MlPivot

/-- A 3-vector of exact rationals.  Maya's double-precision attribute values
(`translate`, `rotatePivot`, ...) are embedded as rationals. -/
structure Vec3 where
  x : ℚ
  y : ℚ
  z : ℚ
deriving DecidableEq, Repr

namespace Vec3

def add (a b : Vec3) : Vec3 := ⟨a.x + b.x, a.y + b.y, a.z + b.z⟩

def sub (a b : Vec3) : Vec3 := ⟨a.x - b.x, a.y - b.y, a.z - b.z⟩

def neg (a : Vec3) : Vec3 := ⟨-a.x, -a.y, -a.z⟩

def zero : Vec3 := ⟨0, 0, 0⟩

instance : Add Vec3 := ⟨Vec3.add⟩

instance : Sub Vec3 := ⟨Vec3.sub⟩

instance : Neg Vec3 := ⟨Vec3.neg⟩

instance : Zero Vec3 := ⟨Vec3.zero⟩

end Vec3

/-- A 3x3 rational matrix, used for the rotation part of a Maya transform. -/
structure Mat3 where
  a11 : ℚ
  a12 : ℚ
  a13 : ℚ
  a21 : ℚ
  a22 : ℚ
  a23 : ℚ
  a31 : ℚ
  a32 : ℚ
  a33 : ℚ
deriving DecidableEq, Repr

namespace Mat3

def mulVec (m : Mat3) (v : Vec3) : Vec3 :=
  ⟨m.a11 * v.x + m.a12 * v.y + m.a13 * v.z,
   m.a21 * v.x + m.a22 * v.y + m.a23 * v.z,
   m.a31 * v.x + m.a32 * v.y + m.a33 * v.z⟩

def transpose (m : Mat3) : Mat3 :=
  ⟨m.a11, m.a21, m.a31, m.a12, m.a22, m.a32, m.a13, m.a23, m.a33⟩

def mul (m n : Mat3) : Mat3 :=
  ⟨m.a11 * n.a11 + m.a12 * n.a21 + m.a13 * n.a31,
   m.a11 * n.a12 + m.a12 * n.a22 + m.a13 * n.a32,
   m.a11 * n.a13 + m.a12 * n.a23 + m.a13 * n.a33,
   m.a21 * n.a11 + m.a22 * n.a21 + m.a23 * n.a31,
   m.a21 * n.a12 + m.a22 * n.a22 + m.a23 * n.a32,
   m.a21 * n.a13 + m.a22 * n.a23 + m.a23 * n.a33,
   m.a31 * n.a11 + m.a32 * n.a21 + m.a33 * n.a31,
   m.a31 * n.a12 + m.a32 * n.a22 + m.a33 * n.a32,
   m.a31 * n.a13 + m.a32 * n.a23 + m.a33 * n.a33⟩

def one : Mat3 := ⟨1, 0, 0, 0, 1, 0, 0, 0, 1⟩

/-- Orthogonality of the rotation part: the transpose is a left inverse. -/
def IsOrtho (m : Mat3) : Prop := m.transpose.mul m = Mat3.one

instance (m : Mat3) : Decidable m.IsOrtho := by
  unfold IsOrtho; infer_instance

end Mat3

/-! ## Kinematic model of the bake pipeline

A Maya transform node is embedded as its per-frame local translation, its
per-frame rotation matrix and its (static, per the tool's use) rotate pivot.
Scale, shear, rotate axis and the translate pivots are identity/zero, and the
node sits at the scene root, which matches the data the tool reads and
writes.  Frames are integers: `bakeOnOnes` places a key on every whole frame,
and all quantities here are per-frame samples. -/

structure XForm where
  translate : Int → Vec3
  rot : Int → Mat3
  rotatePivot : Vec3

/-- World-space image of a point `p` given in the node's local coordinates:
`R(t) * (p - rp) + rp + T(t)`, the translation row of Maya's transform matrix
applied to `p` (pivots other than `rotatePivot` being zero). -/
def worldPt (f : XForm) (p : Vec3) (t : Int) : Vec3 :=
  (f.rot t).mulVec (p - f.rotatePivot) + f.rotatePivot + f.translate t

/-- World-space position of the node's rotate pivot, the point a
`parentConstraint` aligns and `xform -q -ws -rp` reports. -/
def worldPivotPos (f : XForm) (t : Int) : Vec3 :=
  worldPt f f.rotatePivot t

/-- Inverse of the node's local-to-world map at frame `t` (valid when the
rotation is orthogonal): sends a world point to local coordinates. -/
def frameInv (f : XForm) (t : Int) (w : Vec3) : Vec3 :=
  (f.rot t).transpose.mulVec (w - f.rotatePivot - f.translate t) + f.rotatePivot

/-- Modelled from the spec: `utl.matchBake` lives in `ml_utilities.py`, which
is not among the sources; per the specification's glossary, baking samples and
writes keys on every frame so that the destination's resulting world-space
motion matches the source.  With `maintainOffset=False` the destination's
world pivot position is keyed to coincide with the source's on every frame;
with `maintainOffset=True` (a parent-constraint-style offset) the destination
rigidly follows the source, keeping the offset measured in the source's local
frame at the current frame `t0`.  Only translation is baked here, matching
the `rotate=False` calls made by `bakePivot`. -/
def matchBake (source destination : XForm) (maintainOffset : Bool)
    (t0 : Int) : XForm :=
  if maintainOffset then
    let localOffset := frameInv source t0 (worldPivotPos destination t0)
    { destination with
        translate := fun t => worldPt source localOffset t - destination.rotatePivot }
  else
    { destination with
        translate := fun t => worldPivotPos source t - destination.rotatePivot }

/-- A freshly created empty group (`mc.group(em=True)`): zero pivot, no
rotation, parked at a constant translation. -/
def emptyGroup (pos : Vec3) : XForm :=
  { translate := fun _ => pos, rot := fun _ => Mat3.one, rotatePivot := 0 }

/-- Kinematics of the animated branch of `EditPivotContext.bakePivot`
(lines 297-303): `handleLocal` is the pivot handle's local translation under
the node (the handle was parented to the node by `editPivotHandle`, so its
world position is `worldPt node handleLocal`), and `t0` is the current frame.

1. `tempPosition = mc.group(em=True)` then
   `mc.delete(mc.parentConstraint(self.pivotHandle, tempPosition))` snaps the
   group to the handle's world position;
2. `utl.matchBake(source=[self.node], destination=[tempPosition],
   maintainOffset=True, rotate=False)`;
3. `mc.setAttr(self.node+'.rotatePivot', *newPivot)` where `newPivot` is the
   handle's local translation;
4. `utl.matchBake(source=[tempPosition], destination=[self.node],
   maintainOffset=False, rotate=False)`. -/
def bakePivotKinematics (node : XForm) (handleLocal : Vec3) (t0 : Int) :
    XForm :=
  let tempPosition := emptyGroup (worldPt node handleLocal t0)
  let tempPosition := matchBake node tempPosition true t0
  let node2 := { node with rotatePivot := handleLocal }
  matchBake tempPosition node2 false t0

/-- A 90-degree rotation about the z axis, used as a concrete animated
rotation sample. -/
def rotZ90 : Mat3 := ⟨0, -1, 0, 1, 0, 0, 0, 0, 1⟩

/-- A concrete animated node: translation animated over time, rotated by
`rotZ90`, with a nonzero rotate pivot. -/
def sampleNode : XForm :=
  { translate := fun t => ⟨(t : ℚ), 2 * (t : ℚ), 1⟩
    rot := fun _ => rotZ90
    rotatePivot := ⟨1, 2, 3⟩ }

/-! ## Control-flow model of the command handlers

The handlers are embedded as functions from a `Scene` (the host state they
read and write) to a new `Scene` together with a trace of `Effect`s, one per
host call made.  Node attributes that the script queries are carried on a
per-node record; `mc.ls(sl=True)` only ever returns existing nodes, and a
selection entry with no node record is treated as a no-op read of default
values. -/

/-- The source end of a connection into one of the node's rotate-pivot
channels, together with the attribute facts the script queries about it:
the source node's type (`mc.nodeType`), and for a `remapValue` source, the
plug feeding its `inputValue` along with that plug's `keyable` and `lock`
states. -/
structure ConnSrc where
  srcNode : String
  srcType : String
  inputValuePlug : Option String
  inputValueKeyable : Bool
  inputValueLocked : Bool
deriving DecidableEq, Repr

/-- The per-node attribute state read and written by the tool. -/
structure NodeState where
  /-- current `rotatePivot` value (`mc.getAttr(node+'.rotatePivot')[0]`) -/
  rotatePivot : Vec3
  /-- current `translate` value (read off the pivot handle in `bakePivot`) -/
  translate : Vec3
  /-- whether `mc.attributeQuery('ml_pivot_handle', exists=True)` holds -/
  hasHandleAttr : Bool
  /-- incoming connection on the compound `rotatePivot` plug -/
  rpConn : Option ConnSrc
  /-- incoming connection on `rotatePivotX` -/
  rpxConn : Option ConnSrc
  /-- incoming connection on `rotatePivotY` -/
  rpyConn : Option ConnSrc
  /-- incoming connection on `rotatePivotZ` -/
  rpzConn : Option ConnSrc
  /-- whether `mc.keyframe(node, attribute=('tx','ty','tz','rx','ry','rz'),
  query=True, name=True)` returns any curves -/
  hasKeys : Bool
  /-- `rotatePivot` as a function of a driving plug's value, for pivots
  driven through a `remapValue` node; entries absent from the table read as
  the static `rotatePivot` -/
  driverMap : List (ℚ × Vec3)
deriving DecidableEq, Repr

/-- A blank transform node (`mc.group(em=True)`). -/
def blankNode : NodeState :=
  { rotatePivot := 0, translate := 0, hasHandleAttr := false,
    rpConn := none, rpxConn := none, rpyConn := none, rpzConn := none,
    hasKeys := false, driverMap := [] }

/-- The slice of the host scene the tool touches. -/
structure Scene where
  /-- `mc.ls(sl=True)` -/
  selection : List String
  /-- existing nodes and their attribute state -/
  nodes : List (String × NodeState)
  /-- scalar plug values (`mc.getAttr` on driver plugs) -/
  plugValues : List (String × ℚ)
  /-- scalar plug defaults (`mc.attributeQuery(..., listDefault=True)`) -/
  plugDefaults : List (String × ℚ)
  /-- whether the tool's SelectionChanged script job is alive -/
  scriptJobLive : Bool
deriving DecidableEq, Repr

namespace Scene

def getNode (s : Scene) (n : String) : Option NodeState :=
  List.lookup n s.nodes

/-- `mc.objExists` -/
def objExists (s : Scene) (n : String) : Bool :=
  (s.getNode n).isSome

/-- `mc.attributeQuery('ml_pivot_handle', exists=True, node=n)` -/
def hasHandleAttr (s : Scene) (n : String) : Bool :=
  ((s.getNode n).map NodeState.hasHandleAttr).getD false

/-- `mc.getAttr(n+'.rotatePivot')[0]` -/
def rotatePivotOf (s : Scene) (n : String) : Vec3 :=
  ((s.getNode n).map NodeState.rotatePivot).getD 0

/-- `mc.getAttr(n+'.translate')[0]` -/
def translateOf (s : Scene) (n : String) : Vec3 :=
  ((s.getNode n).map NodeState.translate).getD 0

/-- `mc.getAttr(plug)` for a scalar driver plug -/
def getPlug (s : Scene) (plug : String) : ℚ :=
  (List.lookup plug s.plugValues).getD 0

/-- `mc.attributeQuery(attr, node=node, listDefault=True)[0]` -/
def getPlugDefault (s : Scene) (plug : String) : ℚ :=
  (List.lookup plug s.plugDefaults).getD 0

/-- the pivot the node would have were its driver plug set to `v`
(`mc.getAttr(node+'.rotatePivot')` bracketed by `mc.setAttr(driver, v)`) -/
def drivenPivotAt (s : Scene) (n : String) (v : ℚ) : Vec3 :=
  match s.getNode n with
  | none => 0
  | some st => (List.lookup v st.driverMap).getD st.rotatePivot

/-- `mc.setAttr(plug, v)`: record the new scalar plug value. -/
def setPlug (s : Scene) (plug : String) (v : ℚ) : Scene :=
  { s with plugValues := (plug, v) :: s.plugValues }

/-- `mc.setAttr(n+'.rotatePivot', *v)` -/
def setRotatePivot (s : Scene) (n : String) (v : Vec3) : Scene :=
  { s with nodes := s.nodes.map fun p =>
      if p.1 = n then (p.1, { p.2 with rotatePivot := v }) else p }

/-- Mark that translation keys were baked onto `n` (`utl.matchBake` writes
keyframes on the node's translate channels). -/
def setHasKeys (s : Scene) (n : String) : Scene :=
  { s with nodes := s.nodes.map fun p =>
      if p.1 = n then (p.1, { p.2 with hasKeys := true }) else p }

/-- `mc.delete(n)` -/
def removeNode (s : Scene) (n : String) : Scene :=
  { s with nodes := s.nodes.filter fun p => !(p.1 == n) }

/-- `mc.select(n)` -/
def selectNode (s : Scene) (n : String) : Scene :=
  { s with selection := [n] }

/-- nodes returned by `mc.ls('*.ml_pivot_handle', o=True)` -/
def handleNodes (s : Scene) : List String :=
  (s.nodes.filter fun p => p.2.hasHandleAttr).map Prod.fst

end Scene

/-- `is_pivot_connected(node)` (lines 358-362): true when any of
`rotatePivot`, `rotatePivotX/Y/Z` has an incoming connection. -/
def is_pivot_connected (s : Scene) (n : String) : Bool :=
  match s.getNode n with
  | none => false
  | some st =>
    st.rpConn.isSome || st.rpxConn.isSome || st.rpyConn.isSome ||
      st.rpzConn.isSome

/-- One step of the loop body of `pivot_driver_attr`: a channel yields a
driver plug when its source is a `remapValue` node whose `inputValue` is fed
by a keyable, unlocked plug. -/
def channelDriver (c : Option ConnSrc) : Option String :=
  match c with
  | none => none
  | some src =>
    if src.srcType = "remapValue" then
      match src.inputValuePlug with
      | some plug =>
        if src.inputValueKeyable && !src.inputValueLocked then some plug
        else none
      | none => none
    else none

/-- `pivot_driver_attr(node)` (lines 338-355): scan `rotatePivotX`,
`rotatePivotY`, `rotatePivotZ` in order and return the first supported
driver plug. -/
def pivot_driver_attr (s : Scene) (n : String) : Option String :=
  match s.getNode n with
  | none => none
  | some st =>
    match channelDriver st.rpxConn with
    | some plug => some plug
    | none =>
      match channelDriver st.rpyConn with
      | some plug => some plug
      | none => channelDriver st.rpzConn

/-- One host call made by the tool, recorded in order of execution. -/
inductive Effect where
  /-- `om.MGlobal.displayWarning(msg)` -/
  | warning (msg : String)
  /-- `mc.setAttr(n+'.rotatePivot', *v)` -/
  | setRotatePivot (n : String) (v : Vec3)
  /-- `mc.setAttr(n+'.translate', *v)` -/
  | setTranslate (n : String) (v : Vec3)
  /-- `mc.setAttr(n+'.rotate', *v)` -/
  | setRotate (n : String) (v : Vec3)
  /-- `mc.setAttr(plug, v)` on a scalar driver plug -/
  | setPlug (plug : String) (v : ℚ)
  /-- `mc.group(em=True)` (possibly under a parent) -/
  | createNode (n : String)
  /-- `mc.delete(n)` -/
  | deleteNode (n : String)
  /-- `mc.parent(child, parentNode)` -/
  | parentNode (child parentNode : String)
  /-- `mc.delete(mc.parentConstraint(target, n))`: snap `n` to `target` -/
  | snapTo (n target : String)
  /-- `mc.lockNode(n, lock=b)` -/
  | lockNode (n : String) (b : Bool)
  /-- `mc.addAttr(n, ln=attrName, ...)` -/
  | addAttr (n attrName : String)
  /-- the handle-shaping `mc.setAttr` calls (lock/keyable/displayHandle) -/
  | configureHandle (n : String)
  /-- `utl.matchBake(source=[src], destination=[dst], bakeOnOnes=...,
  maintainOffset=..., rotate=...)` -/
  | matchBake (src dst : String) (bakeOnOnes maintainOffset rotate : Bool)
  /-- `mc.cutKey(plug)` -/
  | cutKey (plug : String)
  /-- `mc.select(n)` -/
  | selectNode (n : String)
  /-- `qt_maya_window.installEventFilter(...)` -/
  | installFilter
  /-- `qt_maya_window.removeEventFilter(...)` -/
  | removeFilter
  /-- `mc.scriptJob(event=['SelectionChanged', ...], runOnce=b)` -/
  | scriptJobCreate (runOnce : Bool)
  /-- `mc.scriptJob(kill=..., force=True)` -/
  | scriptJobKill
  /-- `mc.setToolTo(tool)` -/
  | setToolTo (tool : String)
  /-- `mc.inViewMessage(...)` -/
  | inViewMessage
  /-- the `mc.window`/`mc.floatSliderButtonGrp` UI of `editPivotDriver` -/
  | showDriverWindow (plug : String)
  /-- `mc.deleteUI(window)` -/
  | deleteUI (w : String)
  /-- `mc.refresh()` -/
  | refresh
deriving DecidableEq, Repr

/-- First `try` block of `cleanup`: unlock and delete the pivot handle;
when it no longer exists the calls raise and the `except` swallows it,
leaving the scene as it was. -/
def cleanupBlock1 (s : Scene) (pivotHandle : String) : Scene :=
  if s.objExists pivotHandle then s.removeNode pivotHandle else s

/-- Second `try` block of `cleanup`: kill the script job if it exists. -/
def cleanupBlock2 (s : Scene) : Scene :=
  if s.scriptJobLive then { s with scriptJobLive := false } else s

/-- The sweep of lines 332-336 on the scene: every node still carrying
`ml_pivot_handle` is unlocked and deleted. -/
def cleanupSweepScene (s : Scene) : Scene :=
  { s with nodes := s.nodes.filter fun p => !p.2.hasHandleAttr }

/-- `EditPivotContext.cleanup` (lines 318-336), happy path: unlock and
delete the pivot handle (the enclosing `try` swallows the failure when the
handle does not exist), kill the script job if it is alive, then sweep any
remaining nodes carrying the `ml_pivot_handle` attribute.  The exception
behaviour of this method is modelled separately by `cleanupExc`. -/
def cleanupScene (s : Scene) (pivotHandle : String) : Scene × List Effect :=
  let es1 := if s.objExists pivotHandle then
      [Effect.lockNode pivotHandle false, Effect.deleteNode pivotHandle]
    else []
  let s1 := cleanupBlock1 s pivotHandle
  let es2 := if s1.scriptJobLive then [Effect.scriptJobKill] else []
  let s2 := cleanupBlock2 s1
  let es3 := s2.handleNodes.flatMap fun n =>
    [Effect.lockNode n false, Effect.deleteNode n]
  (cleanupSweepScene s2, es1 ++ es2 ++ es3)

/-- `EditPivotContext.bakePivot` (lines 280-315).  `node` and `pivotHandle`
are the context fields set up by `editPivot`/`editPivotHandle`.  Temporary
groups live only inside this call (created then deleted); they are recorded
in the effect trace.  The final `removeEventFilter` sits in a
`try`/`except`, so it is recorded unconditionally. -/
def bakePivot (s : Scene) (node pivotHandle : String) : Scene × List Effect :=
  if s.objExists pivotHandle && s.objExists node then
    let newPivot := s.translateOf pivotHandle
    if newPivot = s.rotatePivotOf node then cleanupScene s pivotHandle
    else if !(((s.getNode node).map NodeState.hasKeys).getD false) then
      let s1 := s.setRotatePivot node newPivot
      let c := cleanupScene s1 pivotHandle
      (c.1, Effect.setRotatePivot node newPivot :: c.2)
    else
      let s1 := (s.setRotatePivot node newPivot).setHasKeys node
      let s2 := s1.selectNode node
      let c := cleanupScene s2 pivotHandle
      (c.1,
        [Effect.createNode "tempPosition",
         Effect.snapTo "tempPosition" pivotHandle,
         Effect.matchBake node "tempPosition" true true false,
         Effect.setRotatePivot node newPivot,
         Effect.matchBake "tempPosition" node true false false,
         Effect.deleteNode "tempPosition",
         Effect.selectNode node] ++ c.2 ++ [Effect.removeFilter])
  else cleanupScene s pivotHandle

/-- `EditPivotContext.editPivotDriver` (lines 184-210): builds the slider
window; no scene node or attribute is modified until its Bake button runs
`doEditPivotDriver`. -/
def editPivotDriver (s : Scene) (driver : String) : Scene × List Effect :=
  (s, [Effect.showDriverWindow driver])

/-- `EditPivotContext.editPivotHandle` (lines 246-277): install the event
filter, build the locked `Adjust_Pivot` handle under the node, tag it with
`ml_pivot_handle`, place it on the node's rotate pivot, lock it, start the
one-shot SelectionChanged script job and switch to the Move tool.
`mc.group(em=True)` leaves the new group selected. -/
def editPivotHandle (s : Scene) (node : String) : Scene × List Effect :=
  let handle := "Adjust_Pivot"
  let rp := s.rotatePivotOf node
  let s1 : Scene :=
    { s with
        nodes := (handle,
          { blankNode with hasHandleAttr := true, translate := rp }) ::
            s.nodes
        selection := [handle]
        scriptJobLive := true }
  (s1,
    [Effect.installFilter,
     Effect.createNode handle,
     Effect.configureHandle handle,
     Effect.parentNode handle node,
     Effect.addAttr handle "ml_pivot_handle",
     Effect.setTranslate handle rp,
     Effect.lockNode handle true,
     Effect.scriptJobCreate true,
     Effect.setToolTo "Move",
     Effect.inViewMessage])

/-- `EditPivotContext.editPivot` (lines 156-181): selection checks, the
silent pivot-handle check, then dispatch to the driver UI, the connected
warning, or the interactive handle. -/
def editPivot (s : Scene) : Scene × List Effect :=
  match s.selection with
  | [] => (s, [Effect.warning "Nothing selected."])
  | [sel0] =>
    if s.hasHandleAttr sel0 then (s, [])
    else if is_pivot_connected s sel0 then
      match pivot_driver_attr s sel0 with
      | some driverAttr => editPivotDriver s driverAttr
      | none =>
        (s, [Effect.warning "Pivot attribute is connected, unable to edit."])
    else editPivotHandle s sel0
  | _ => (s, [Effect.warning "Only works on one node at a time."])

/-- `edit_pivot(*args)` (lines 120-122): build a fresh context and run
`editPivot`. -/
def edit_pivot (s : Scene) : Scene × List Effect :=
  editPivot s

/-- The baking tail of `reset_pivot` (lines 398-423), reached after all the
early returns.  `driver` carries the plug, its current value and its default
when the pivot is attribute-driven.  The temporary groups `tempPosition` and
`tempPivot` are created and deleted inside the call and are recorded in the
trace; the net scene change is the pivot reset (plug to default, or
`rotatePivot` to zero), translation keys baked onto the node, and the node
reselected. -/
def reset_pivot_bake (s : Scene) (node : String)
    (driver : Option (String × ℚ × ℚ)) : Scene × List Effect :=
  let tempPosition := "tempPosition"
  let tempPivot := "tempPivot"
  let es :=
    [Effect.createNode tempPosition,
     Effect.createNode tempPivot,
     Effect.parentNode tempPivot node] ++
    (match driver with
     | some (d, value, dft) =>
       [Effect.setPlug d dft,
        Effect.setPlug d value,
        Effect.setTranslate tempPivot (s.drivenPivotAt node dft)]
     | none => [Effect.setTranslate tempPivot 0]) ++
    [Effect.setRotate tempPivot 0,
     Effect.matchBake tempPivot tempPosition true false false] ++
    (match driver with
     | some (d, _, dft) => [Effect.setPlug d dft]
     | none => [Effect.setRotatePivot node 0]) ++
    [Effect.refresh,
     Effect.matchBake tempPosition node true false false,
     Effect.deleteNode tempPosition,
     Effect.deleteNode tempPivot,
     Effect.selectNode node]
  let s1 := match driver with
    | some (d, value, dft) => ((s.setPlug d dft).setPlug d value).setPlug d dft
    | none => s.setRotatePivot node 0
  ((s1.setHasKeys node).selectNode node, es)

/-- `reset_pivot(*args)` (lines 365-423): selection checks, driver
detection, the already-reset early returns, then the baking tail. -/
def reset_pivot (s : Scene) : Scene × List Effect :=
  match s.selection with
  | [] => (s, [Effect.warning "Nothing selected."])
  | [node] =>
    if is_pivot_connected s node then
      match pivot_driver_attr s node with
      | some driver =>
        let driver_value := s.getPlug driver
        let driver_default := s.getPlugDefault driver
        if driver_default = driver_value then (s, [])
        else reset_pivot_bake s node (some (driver, driver_value, driver_default))
      | none =>
        (s, [Effect.warning "Pivot attribute is connected, unable to edit."])
    else
      if s.rotatePivotOf node = 0 then (s, [])
      else reset_pivot_bake s node none
  | _ => (s, [Effect.warning "Only works on one node at a time."])

/-- `EditPivotContext.doEditPivotDriver` (lines 212-243): read the slider
value (`newValue`), drop the slider window, and if the value changed,
measure the pivot at the new driver value, build the offset pair of groups,
bake the node's motion onto `parentPosition`, rekey the driver and bake the
compensated translation back onto the node.  The first `matchBake` call
omits the `rotate` flag, so it bakes with the utility's default (rotation
included). -/
def doEditPivotDriver (s : Scene) (node driver : String) (newValue : ℚ) :
    Scene × List Effect :=
  let es0 := [Effect.deleteUI "ml_pivot_editPivotDriverUI"]
  let currentValue := s.getPlug driver
  if newValue = currentValue then (s, es0)
  else
    let oldRP := s.rotatePivotOf node
    let newRP := s.drivenPivotAt node newValue
    let s1 := ((s.setPlug driver newValue).setPlug driver
        currentValue).setPlug driver newValue
    ((s1.setHasKeys node),
      es0 ++
        [Effect.setPlug driver newValue,
         Effect.setPlug driver currentValue,
         Effect.createNode "parentPosition",
         Effect.createNode "offsetPosition",
         Effect.parentNode "offsetPosition" "parentPosition",
         Effect.setTranslate "offsetPosition" (newRP - oldRP),
         Effect.snapTo "parentPosition" node,
         Effect.matchBake node "parentPosition" true false true,
         Effect.cutKey driver,
         Effect.setPlug driver newValue,
         Effect.refresh,
         Effect.matchBake "offsetPosition" node true false false,
         Effect.deleteNode "parentPosition"])

/-- One button of the tool's window (`win.buttonWithPopup`). -/
structure Button where
  label : String
  shelfLabel : String
  shelfIcon : String
  command : Scene → Scene × List Effect

/-- `ui()` (lines 107-117): the `ml_pivot` window body, two buttons. -/
def ui : List Button :=
  [{ label := "Edit Pivot", shelfLabel := "pivot",
     shelfIcon := "defaultTwoStackedLayout", command := edit_pivot },
   { label := "Reset Pivot", shelfLabel := "reset",
     shelfIcon := "defaultTwoStackedLayout", command := reset_pivot }]

/-! ## Session event model

`editPivotHandle` installs `PivotKeypressFilter` on the Maya main window and
starts a one-shot SelectionChanged script job; together they decide how an
active Edit Pivot session ends. -/

/-- A Qt key, as compared against `QtCore.Qt.Key_Return` and
`QtCore.Qt.Key_Escape`. -/
inductive Key where
  | ret
  | esc
  | other (code : Nat)
deriving DecidableEq, Repr

/-- A Qt event as seen by the installed event filter. -/
inductive QtEvent where
  | keyPress (k : Key)
  | mouseMove
  | paint
  | focusChange
deriving DecidableEq, Repr

/-- What the session does in reaction to an event. -/
inductive SessionAction where
  /-- run `self.bakePivot` (`enterCommand`); the flag records whether it is
  wrapped in `utl.UndoChunk(force=True)` -/
  | commitBake (undoChunk : Bool)
  /-- run `self.cleanup` (`escapeCommand` / the script job) -/
  | runCleanup
  /-- `qt_maya_window.removeEventFilter(self)` -/
  | removeFilter
deriving DecidableEq, Repr

/-- `PivotKeypressFilter.eventFilter` (lines 135-143): on a Return keypress
run the enter command inside an undo chunk, on an Escape keypress run the
escape command and remove the filter; always return `False` so the event
keeps propagating. -/
def eventFilter (ev : QtEvent) : List SessionAction × Bool :=
  match ev with
  | QtEvent.keyPress k =>
    ((if k = Key.ret then [SessionAction.commitBake true] else []) ++
      (if k = Key.esc then
        [SessionAction.runCleanup, SessionAction.removeFilter] else []),
      false)
  | _ => ([], false)

/-- The body of the script job registered at line 273:
`mc.scriptJob(event=['SelectionChanged', self.cleanup], runOnce=True)`. -/
def selectionChangedJob : List SessionAction := [SessionAction.runCleanup]

/-- The `runOnce` flag of that script job. -/
def selectionChangedJobRunOnce : Bool := true

/-- A host event that can reach an active Edit Pivot session. -/
inductive HostEvent where
  | qt (ev : QtEvent)
  | selectionChanged
deriving DecidableEq, Repr

/-- The session's reaction to a host event: Qt events go through the event
filter, a selection change fires the script job. -/
def sessionStep : HostEvent → List SessionAction
  | HostEvent.qt ev => (eventFilter ev).1
  | HostEvent.selectionChanged => selectionChangedJob

/-- An event ends the session when it triggers the bake or the cleanup. -/
def endsSession (ev : HostEvent) : Bool :=
  !(sessionStep ev).isEmpty

/-! ## Exception model of `cleanup`

`mc.lockNode`/`mc.delete` can raise in the host (locked hierarchies,
referenced nodes, a `None` handle), and `mc.scriptJob` kills can fail.
`FailCfg` says which calls raise; `cleanupExc` mirrors the `try`/`except`
structure of `EditPivotContext.cleanup` under that configuration. -/

structure FailCfg where
  /-- `mc.lockNode(n, lock=...)` raises on node `n` -/
  lockFails : String → Bool
  /-- `mc.delete(n)` raises on node `n` -/
  deleteFails : String → Bool
  /-- killing the script job raises -/
  jobKillFails : Bool

/-- The sweep loop at lines 332-336: unlock then delete every node carrying
`ml_pivot_handle`.  It sits in no `try` block, so a failing call aborts
`cleanup` with the host error. -/
def sweepHandles (f : FailCfg) : List String → Scene → Except Unit Scene
  | [], s => Except.ok s
  | n :: rest, s =>
    if f.lockFails n then Except.error ()
    else if f.deleteFails n then Except.error ()
    else sweepHandles f rest (s.removeNode n)

/-- `EditPivotContext.cleanup` (lines 318-336) under a failure
configuration.  The handle block and the script-job block are each wrapped
in `try ... except: pass`, so they ignore every failure (including a `None`
or already-deleted handle); the final sweep is unprotected. -/
def cleanupExc (f : FailCfg) (s : Scene) (pivotHandle : Option String) :
    Except Unit Scene :=
  let s1 := match pivotHandle with
    | none => s
    | some h =>
      if s.objExists h && !f.lockFails h then
        if !f.deleteFails h then s.removeNode h else s
      else s
  let s2 := if s1.scriptJobLive && !f.jobKillFails then
      { s1 with scriptJobLive := false }
    else s1
  sweepHandles f s2.handleNodes s2

/-! ## Trace predicates and concrete scenes -/

/-- Per-effect check that a baking call samples every frame. -/
def bakeOnOnesFlag : Effect → Bool
  | Effect.matchBake _ _ b _ _ => b
  | _ => true

/-- All `matchBake` calls in a trace have `bakeOnOnes=True`. -/
def allBakesOnOnes (es : List Effect) : Bool :=
  es.all bakeOnOnesFlag

/-- Whether an effect creates a scene node. -/
def isCreateNode : Effect → Bool
  | Effect.createNode _ => true
  | _ => false

/-- Whether an effect is a baking call (the only writer of animation keys
in the tool). -/
def isMatchBake : Effect → Bool
  | Effect.matchBake _ _ _ _ _ => true
  | _ => false

/-- A scene with nothing selected. -/
def emptyScene : Scene :=
  { selection := [], nodes := [], plugValues := [], plugDefaults := [],
    scriptJobLive := false }

/-- A scene whose only selected node is a pivot handle. -/
def handleOnlyScene : Scene :=
  { selection := ["h1"],
    nodes := [("h1", { blankNode with hasHandleAttr := true })],
    plugValues := [], plugDefaults := [], scriptJobLive := false }

/-- A connection source that is not a supported driver (an animation curve
plugged straight into `rotatePivotX`). -/
def connAnimCurve : ConnSrc :=
  { srcNode := "animCurve1", srcType := "animCurveTL", inputValuePlug := none,
    inputValueKeyable := false, inputValueLocked := false }

/-- A selected node that carries the `ml_pivot_handle` attribute AND has a
connected pivot with no supported driver. -/
def handleConnScene : Scene :=
  { selection := ["node1"],
    nodes := [("node1",
      { blankNode with hasHandleAttr := true, rpxConn := some connAnimCurve })],
    plugValues := [], plugDefaults := [], scriptJobLive := false }

/-- A leftover node carrying `ml_pivot_handle` (for example a handle that
became referenced or locked in a way that makes `mc.lockNode`/`mc.delete`
raise). -/
def refHandleScene : Scene :=
  { selection := [],
    nodes := [("refHandle", { blankNode with hasHandleAttr := true })],
    plugValues := [], plugDefaults := [], scriptJobLive := false }

/-- A failure configuration where unlocking the leftover node raises. -/
def refLockFailCfg : FailCfg :=
  { lockFails := fun n => n == "refHandle", deleteFails := fun _ => false,
    jobKillFails := false }

/-- A configuration where only the script-job kill fails. -/
def jobFailCfg : FailCfg :=
  { lockFails := fun _ => false, deleteFails := fun _ => false,
    jobKillFails := true }

/-- A control with no keyframes, next to the tool's pivot handle. -/
def noKeysScene : Scene :=
  { selection := ["Adjust_Pivot"],
    nodes := [("ctrl", { blankNode with rotatePivot := ⟨1, 1, 1⟩ }),
              ("Adjust_Pivot",
                { blankNode with hasHandleAttr := true,
                                 translate := ⟨2, 3, 4⟩ })],
    plugValues := [], plugDefaults := [], scriptJobLive := true }

/-- A single selected control whose pivot is already zero. -/
def zeroPivotScene : Scene :=
  { selection := ["ctrl"], nodes := [("ctrl", blankNode)],
    plugValues := [], plugDefaults := [], scriptJobLive := false }

/-! ## Vector and matrix lemmas -/

namespace Vec3

@[simp] theorem add_def (a b : Vec3) :
    a + b = ⟨a.x + b.x, a.y + b.y, a.z + b.z⟩ := rfl

@[simp] theorem sub_def (a b : Vec3) :
    a - b = ⟨a.x - b.x, a.y - b.y, a.z - b.z⟩ := rfl

@[simp] theorem neg_def (a : Vec3) : -a = ⟨-a.x, -a.y, -a.z⟩ := rfl

@[simp] theorem zero_def : (0 : Vec3) = ⟨0, 0, 0⟩ := rfl

theorem ext_iff {a b : Vec3} : a = b ↔ a.x = b.x ∧ a.y = b.y ∧ a.z = b.z := by
  cases a; cases b; simp

theorem add_sub_self (a b : Vec3) : b + (a - b) = a := by
  cases a; cases b
  simp only [add_def, sub_def, mk.injEq]
  refine ⟨by ring, by ring, by ring⟩

theorem add_add_sub (a b c : Vec3) : a + b + (c - b) = a + c := by
  cases a; cases b; cases c
  simp only [add_def, sub_def, mk.injEq]
  refine ⟨by ring, by ring, by ring⟩

theorem add_add_sub_sub (a b c : Vec3) : a + b + c - b - c = a := by
  cases a; cases b; cases c
  simp only [add_def, sub_def, mk.injEq]
  refine ⟨by ring, by ring, by ring⟩

theorem sub_add_self (a b : Vec3) : a - b + b = a := by
  cases a; cases b
  simp only [add_def, sub_def, mk.injEq]
  refine ⟨by ring, by ring, by ring⟩

theorem sub_add_sub_add_add (a b c d e : Vec3) :
    a - b + (b - c + d + e) = a - c + d + e := by
  cases a; cases b; cases c; cases d; cases e
  simp only [add_def, sub_def, mk.injEq]
  refine ⟨by ring, by ring, by ring⟩

end Vec3

namespace Mat3

theorem mul_mulVec (m n : Mat3) (v : Vec3) :
    (m.mul n).mulVec v = m.mulVec (n.mulVec v) := by
  simp only [mul, mulVec, Vec3.ext_iff]
  refine ⟨by ring, by ring, by ring⟩

@[simp] theorem one_mulVec (v : Vec3) : Mat3.one.mulVec v = v := by
  cases v
  simp [one, mulVec]

theorem mulVec_sub (m : Mat3) (a b : Vec3) :
    m.mulVec (a - b) = m.mulVec a - m.mulVec b := by
  simp only [mulVec, Vec3.sub_def, Vec3.ext_iff]
  refine ⟨by ring, by ring, by ring⟩

theorem IsOrtho.transpose_mulVec {m : Mat3} (hm : m.IsOrtho) (v : Vec3) :
    m.transpose.mulVec (m.mulVec v) = v := by
  rw [← mul_mulVec, hm, one_mulVec]

end Mat3

/-! ## Kinematic lemmas and the pivot-preservation theorem -/

theorem worldPivotPos_eq (f : XForm) (t : Int) :
    worldPivotPos f t = f.rotatePivot + f.translate t := by
  cases hv : f.rotatePivot
  simp [worldPivotPos, worldPt, hv, Mat3.mulVec]

theorem worldPivotPos_emptyGroup (pos : Vec3) (t : Int) :
    worldPivotPos (emptyGroup pos) t = pos := by
  cases hp : pos
  simp [worldPivotPos, worldPt, emptyGroup, hp]

theorem worldPivotPos_matchBake_true (src dst : XForm) (t0 t : Int) :
    worldPivotPos (matchBake src dst true t0) t
      = worldPt src (frameInv src t0 (worldPivotPos dst t0)) t := by
  simp only [matchBake, if_pos]
  rw [worldPivotPos_eq]
  exact Vec3.add_sub_self _ _

theorem worldPt_matchBake_false (src dst : XForm) (t0 t : Int) (p : Vec3) :
    worldPt (matchBake src dst false t0) p t
      = (dst.rot t).mulVec (p - dst.rotatePivot) + worldPivotPos src t := by
  simp only [matchBake, Bool.false_eq_true, if_neg, not_false_eq_true]
  rw [worldPt]
  exact Vec3.add_add_sub _ _ _

theorem frameInv_worldPt (f : XForm) (t : Int) (p : Vec3)
    (hrot : (f.rot t).IsOrtho) : frameInv f t (worldPt f p t) = p := by
  rw [frameInv, worldPt, Vec3.add_add_sub_sub, hrot.transpose_mulVec,
    Vec3.sub_add_self]

/-- C1: For an animated node taken through the keyframed branch of
`EditPivotContext.bakePivot`, the pivot change preserves the node's
world-space motion: the snapped-and-baked helper transform tracks the node
frame by frame, and after `rotatePivot` is set to the handle's position the
node's translation is re-baked from the helper, so every point rigidly
attached to the node traces exactly the same world-space trajectory as
before (assuming the node's rotation at the current frame is a proper
orthogonal matrix, as Maya rotations are). -/
theorem pivot_c1_bake_preserves_world_motion (node : XForm)
    (handleLocal : Vec3) (t0 : Int) (hrot : (node.rot t0).IsOrtho) :
    ∀ (p : Vec3) (t : Int),
      worldPt (bakePivotKinematics node handleLocal t0) p t
        = worldPt node p t := by
  intro p t
  show worldPt (matchBake
      (matchBake node (emptyGroup (worldPt node handleLocal t0)) true t0)
      { node with rotatePivot := handleLocal } false t0) p t
    = worldPt node p t
  rw [worldPt_matchBake_false, worldPivotPos_matchBake_true,
    worldPivotPos_emptyGroup, frameInv_worldPt node t0 handleLocal hrot]
  show (node.rot t).mulVec (p - handleLocal) + worldPt node handleLocal t
    = worldPt node p t
  simp only [worldPt]
  rw [Mat3.mulVec_sub, Mat3.mulVec_sub, Mat3.mulVec_sub]
  exact Vec3.sub_add_sub_add_add _ _ _ _ _

theorem rotZ90_ortho : rotZ90.IsOrtho := by
  show rotZ90.transpose.mul rotZ90 = Mat3.one
  simp only [rotZ90, Mat3.transpose, Mat3.mul, Mat3.one, Mat3.mk.injEq]
  norm_num

theorem pivot_c1_witness :
    (sampleNode.rot 0).IsOrtho ∧
      worldPt (bakePivotKinematics sampleNode ⟨4, 5, 6⟩ 0) ⟨7, 8, 9⟩ 2
        = worldPt sampleNode ⟨7, 8, 9⟩ 2 :=
  ⟨rotZ90_ortho,
    pivot_c1_bake_preserves_world_motion sampleNode ⟨4, 5, 6⟩ 0 rotZ90_ortho
      ⟨7, 8, 9⟩ 2⟩

/-! ## Association-list lemmas used by the claim proofs -/

theorem lookup_cons_self {β : Type} (k : String) (v : β) (tl : List (String × β)) :
    List.lookup k ((k, v) :: tl) = some v := by
  simp [List.lookup]

theorem lookup_cons_ne {β : Type} (n k : String) (v : β) (tl : List (String × β))
    (h : n ≠ k) : List.lookup n ((k, v) :: tl) = List.lookup n tl := by
  simp [List.lookup, beq_eq_false_iff_ne.mpr h]

theorem lookup_map_if {β : Type} (n : String) (g : β → β)
    (l : List (String × β)) :
    List.lookup n (l.map fun p => if p.1 = n then (p.1, g p.2) else p)
      = (List.lookup n l).map g := by
  induction l with
  | nil => rfl
  | cons hd tl ih =>
    obtain ⟨k, v⟩ := hd
    by_cases h : k = n
    · subst h
      rw [List.map_cons]
      show List.lookup k ((if k = k then (k, g v) else (k, v)) :: _) = _
      rw [if_pos rfl, lookup_cons_self, lookup_cons_self]
      rfl
    · rw [List.map_cons]
      show List.lookup n ((if k = n then (k, g v) else (k, v)) :: _) = _
      rw [if_neg h, lookup_cons_ne n k v _ (Ne.symm h),
        lookup_cons_ne n k v _ (Ne.symm h), ih]

theorem lookup_filter_ne {β : Type} (n m : String) (hne : n ≠ m)
    (l : List (String × β)) :
    List.lookup n (l.filter fun p => !(p.1 == m)) = List.lookup n l := by
  induction l with
  | nil => rfl
  | cons hd tl ih =>
    obtain ⟨k, v⟩ := hd
    by_cases h : k = m
    · subst h
      rw [List.filter_cons_of_neg (by simp), lookup_cons_ne n k v tl hne, ih]
    · rw [List.filter_cons_of_pos (by simp [h])]
      by_cases h2 : n = k
      · subst h2
        rw [lookup_cons_self, lookup_cons_self]
      · rw [lookup_cons_ne n k v _ h2, lookup_cons_ne n k v tl h2, ih]

theorem lookup_filter_val {β : Type} (n : String) (q : β → Bool)
    (l : List (String × β)) (st : β) (h : List.lookup n l = some st)
    (hq : q st = true) :
    List.lookup n (l.filter fun p => q p.2) = some st := by
  induction l with
  | nil => simp [List.lookup] at h
  | cons hd tl ih =>
    obtain ⟨k, v⟩ := hd
    by_cases h2 : n = k
    · subst h2
      rw [lookup_cons_self] at h
      injection h with h
      subst h
      rw [List.filter_cons_of_pos (by exact hq), lookup_cons_self]
    · rw [lookup_cons_ne n k v tl h2] at h
      by_cases h3 : q v = true
      · rw [List.filter_cons_of_pos (by exact h3), lookup_cons_ne n k v _ h2]
        exact ih h
      · rw [List.filter_cons_of_neg (by simp [h3])]
        exact ih h

theorem lookup_none_filter {β : Type} (n : String) (q : String × β → Bool)
    (l : List (String × β)) (h : List.lookup n l = none) :
    List.lookup n (l.filter q) = none := by
  induction l with
  | nil => rfl
  | cons hd tl ih =>
    obtain ⟨k, v⟩ := hd
    by_cases h2 : n = k
    · subst h2
      rw [lookup_cons_self] at h
      exact absurd h (by simp)
    · rw [lookup_cons_ne n k v tl h2] at h
      by_cases h3 : q (k, v) = true
      · rw [List.filter_cons_of_pos h3, lookup_cons_ne n k v _ h2]
        exact ih h
      · rw [List.filter_cons_of_neg (by simp [h3])]
        exact ih h

theorem lookup_filter_self {β : Type} (n : String) (l : List (String × β)) :
    List.lookup n (l.filter fun p => !(p.1 == n)) = none := by
  induction l with
  | nil => rfl
  | cons hd tl ih =>
    obtain ⟨k, v⟩ := hd
    by_cases h : k = n
    · subst h
      rw [List.filter_cons_of_neg (by simp)]
      exact ih
    · rw [List.filter_cons_of_pos (by simp [h]),
        lookup_cons_ne n k v _ (Ne.symm h)]
      exact ih

/-! ## Trace lemmas -/

theorem allBakesOnOnes_nil : allBakesOnOnes [] = true := rfl

theorem allBakesOnOnes_cons (e : Effect) (es : List Effect) :
    allBakesOnOnes (e :: es) = (bakeOnOnesFlag e && allBakesOnOnes es) := rfl

theorem allBakesOnOnes_append (a b : List Effect) :
    allBakesOnOnes (a ++ b) = (allBakesOnOnes a && allBakesOnOnes b) :=
  List.all_append

theorem allBakesOnOnes_sweep (l : List String) :
    allBakesOnOnes (l.flatMap fun n =>
      [Effect.lockNode n false, Effect.deleteNode n]) = true := by
  induction l with
  | nil => rfl
  | cons n tl ih =>
    simp only [List.flatMap_cons, List.cons_append, List.nil_append,
      allBakesOnOnes_cons, ih, Bool.and_true]
    rfl

theorem allBakesOnOnes_cleanupScene (s : Scene) (ph : String) :
    allBakesOnOnes (cleanupScene s ph).2 = true := by
  simp only [cleanupScene, allBakesOnOnes_append, allBakesOnOnes_sweep,
    Bool.and_true, Bool.and_eq_true]
  constructor
  · split <;> rfl
  · split <;> rfl

theorem allBakesOnOnes_reset_pivot_bake (s : Scene) (node : String)
    (driver : Option (String × ℚ × ℚ)) :
    allBakesOnOnes (reset_pivot_bake s node driver).2 = true := by
  match driver with
  | none => rfl
  | some (d, value, dft) => rfl

/-- C4: Every baking operation performed by the tool samples and writes
keys on every frame: each `utl.matchBake` call recorded in the traces of
`bakePivot`, `reset_pivot` and `doEditPivotDriver` carries
`bakeOnOnes=True`, for every scene and every argument. -/
theorem pivot_c4_all_bakes_on_ones :
    ∀ (s : Scene) (node pivotHandle driver : String) (newValue : ℚ),
      allBakesOnOnes (bakePivot s node pivotHandle).2 = true ∧
      allBakesOnOnes (reset_pivot s).2 = true ∧
      allBakesOnOnes (doEditPivotDriver s node driver newValue).2 = true := by
  intro s node ph driver v
  refine ⟨?_, ?_, ?_⟩
  · simp only [bakePivot]
    split
    · split
      · exact allBakesOnOnes_cleanupScene _ _
      · split
        · simp only [allBakesOnOnes_cons, allBakesOnOnes_cleanupScene,
            Bool.and_true]
          rfl
        · simp only [allBakesOnOnes_append, allBakesOnOnes_cleanupScene,
            Bool.and_true]
          rfl
    · exact allBakesOnOnes_cleanupScene _ _
  · simp only [reset_pivot]
    split
    · rfl
    · split
      · split
        · split
          · rfl
          · exact allBakesOnOnes_reset_pivot_bake _ _ _
        · rfl
      · split
        · rfl
        · exact allBakesOnOnes_reset_pivot_bake _ _ _
    · rfl
  · simp only [doEditPivotDriver]
    split
    · rfl
    · rfl

/-- C3: While an Edit Pivot session is active, the event filter reacts to
exactly two keys: Return runs the bake inside an undo chunk, Escape runs
cleanup and removes the filter; any other key, and any non-key Qt event,
does nothing (and the filter always lets the event propagate).  The
one-shot SelectionChanged script job also cancels by running cleanup. -/
theorem pivot_c3_session_event_handling :
    eventFilter (QtEvent.keyPress Key.ret)
        = ([SessionAction.commitBake true], false) ∧
    eventFilter (QtEvent.keyPress Key.esc)
        = ([SessionAction.runCleanup, SessionAction.removeFilter], false) ∧
    (∀ k : Key, k ≠ Key.ret → k ≠ Key.esc →
      eventFilter (QtEvent.keyPress k) = ([], false)) ∧
    (∀ ev : QtEvent, (∀ k : Key, ev ≠ QtEvent.keyPress k) →
      eventFilter ev = ([], false)) ∧
    sessionStep HostEvent.selectionChanged = [SessionAction.runCleanup] ∧
    selectionChangedJobRunOnce = true := by
  refine ⟨rfl, rfl, ?_, ?_, rfl, rfl⟩
  · intro k h1 h2
    simp [eventFilter, h1, h2]
  · intro ev h
    match ev with
    | QtEvent.keyPress k => exact absurd rfl (h k)
    | QtEvent.mouseMove => rfl
    | QtEvent.paint => rfl
    | QtEvent.focusChange => rfl

theorem pivot_c3_witness :
    eventFilter (QtEvent.keyPress (Key.other 65)) = ([], false) :=
  pivot_c3_session_event_handling.2.2.1 (Key.other 65) (by decide) (by decide)

/-- C5 counterexample: the claim says only the Return and Escape keys can
end an active session, but the SelectionChanged script job — not a key
event at all — also cancels it by running cleanup. -/
theorem pivot_c5_counterexample :
    endsSession HostEvent.selectionChanged = true ∧
    sessionStep HostEvent.selectionChanged = [SessionAction.runCleanup] ∧
    HostEvent.selectionChanged ≠ HostEvent.qt (QtEvent.keyPress Key.ret) ∧
    HostEvent.selectionChanged ≠ HostEvent.qt (QtEvent.keyPress Key.esc) := by
  refine ⟨rfl, rfl, ?_, ?_⟩ <;> intro h <;> exact HostEvent.noConfusion h

/-- C5 amended: an active session is ended by exactly three host events —
a Return keypress (commit), an Escape keypress (cancel), or a
SelectionChanged notification (cancel); no other key or Qt event has any
effect on it. -/
theorem pivot_c5_amended_session_enders (ev : HostEvent)
    (h : endsSession ev = true) :
    ev = HostEvent.qt (QtEvent.keyPress Key.ret) ∨
    ev = HostEvent.qt (QtEvent.keyPress Key.esc) ∨
    ev = HostEvent.selectionChanged := by
  match ev with
  | HostEvent.selectionChanged => exact Or.inr (Or.inr rfl)
  | HostEvent.qt (QtEvent.keyPress Key.ret) => exact Or.inl rfl
  | HostEvent.qt (QtEvent.keyPress Key.esc) => exact Or.inr (Or.inl rfl)
  | HostEvent.qt (QtEvent.keyPress (Key.other c)) =>
    simp [endsSession, sessionStep, eventFilter] at h
  | HostEvent.qt QtEvent.mouseMove =>
    simp [endsSession, sessionStep, eventFilter] at h
  | HostEvent.qt QtEvent.paint =>
    simp [endsSession, sessionStep, eventFilter] at h
  | HostEvent.qt QtEvent.focusChange =>
    simp [endsSession, sessionStep, eventFilter] at h

theorem pivot_c5_amended_witness :
    HostEvent.selectionChanged = HostEvent.qt (QtEvent.keyPress Key.ret) ∨
    HostEvent.selectionChanged = HostEvent.qt (QtEvent.keyPress Key.esc) ∨
    HostEvent.selectionChanged = HostEvent.selectionChanged :=
  pivot_c5_amended_session_enders HostEvent.selectionChanged rfl

/-- C7: The window exposes exactly two buttons, `Edit Pivot` wired to
`edit_pivot` and `Reset Pivot` wired to `reset_pivot`; the handlers take
the scene alone — no flags or further arguments. -/
theorem pivot_c7_two_buttons :
    ui.length = 2 ∧
    ui.map Button.label = ["Edit Pivot", "Reset Pivot"] ∧
    ui.map Button.command = [edit_pivot, reset_pivot] :=
  ⟨rfl, rfl, rfl⟩

/-- C9: When the single selected node already carries the
`ml_pivot_handle` attribute, `editPivot` returns silently: no warning, no
effect, the scene unchanged. -/
theorem pivot_c9_handle_selected_silent (s : Scene) (n : String)
    (hsel : s.selection = [n]) (hattr : s.hasHandleAttr n = true) :
    editPivot s = (s, []) := by
  simp [editPivot, hsel, hattr]

theorem pivot_c9_witness :
    editPivot handleOnlyScene = (handleOnlyScene, []) :=
  pivot_c9_handle_selected_silent handleOnlyScene "h1" rfl rfl

/-- C2 counterexample: a single selected node whose `rotatePivot` is driven
by a connection with no supported driver attribute, for which Edit Pivot
displays no warning at all — the `ml_pivot_handle` check at line 167 comes
first and returns silently, so the claimed warning is never shown. -/
theorem pivot_c2_counterexample :
    handleConnScene.selection = ["node1"] ∧
    is_pivot_connected handleConnScene "node1" = true ∧
    pivot_driver_attr handleConnScene "node1" = none ∧
    editPivot handleConnScene = (handleConnScene, []) :=
  ⟨rfl, rfl, rfl, rfl⟩

/-- C2 amended: on an empty selection or a multi-selection, both commands
warn and return with the scene untouched; on a single node whose pivot is
connected with no supported driver, Reset Pivot always warns and returns
unchanged, and Edit Pivot does so provided the node does not carry the
`ml_pivot_handle` attribute (that check precedes the connection check and
returns silently). -/
theorem pivot_c2_amended_warning_returns (s : Scene) :
    (s.selection = [] →
      editPivot s = (s, [Effect.warning "Nothing selected."]) ∧
      reset_pivot s = (s, [Effect.warning "Nothing selected."])) ∧
    (∀ (n m : String) (rest : List String), s.selection = n :: m :: rest →
      editPivot s = (s, [Effect.warning "Only works on one node at a time."]) ∧
      reset_pivot s = (s, [Effect.warning "Only works on one node at a time."])) ∧
    (∀ n : String, s.selection = [n] → is_pivot_connected s n = true →
      pivot_driver_attr s n = none →
      (s.hasHandleAttr n = false →
        editPivot s =
          (s, [Effect.warning "Pivot attribute is connected, unable to edit."])) ∧
      reset_pivot s =
        (s, [Effect.warning "Pivot attribute is connected, unable to edit."])) := by
  refine ⟨?_, ?_, ?_⟩
  · intro h
    exact ⟨by simp [editPivot, h], by simp [reset_pivot, h]⟩
  · intro n m rest h
    exact ⟨by simp [editPivot, h], by simp [reset_pivot, h]⟩
  · intro n hsel hconn hdrv
    constructor
    · intro hattr
      simp [editPivot, hsel, hattr, hconn, hdrv]
    · simp [reset_pivot, hsel, hconn, hdrv]

theorem pivot_c2_amended_witness :
    editPivot emptyScene = (emptyScene, [Effect.warning "Nothing selected."]) ∧
    reset_pivot emptyScene = (emptyScene, [Effect.warning "Nothing selected."]) :=
  (pivot_c2_amended_warning_returns emptyScene).1 rfl

/-- C6 counterexample: the sweep over leftover `ml_pivot_handle` nodes
(lines 332-336) is not inside any `try` block, so when `mc.lockNode` raises
on such a node, `cleanup` propagates the exception — contradicting the
claim that every step is inside a catch-and-ignore block and cleanup never
raises. -/
theorem pivot_c6_counterexample :
    cleanupExc refLockFailCfg refHandleScene (some "Adjust_Pivot")
      = Except.error () := rfl

theorem sweepHandles_ok (f : FailCfg) (hlock : ∀ n, f.lockFails n = false)
    (hdel : ∀ n, f.deleteFails n = false) :
    ∀ (l : List String) (s : Scene), ∃ s2, sweepHandles f l s = Except.ok s2
  | [], s => ⟨s, rfl⟩
  | n :: tl, s => by
    simp only [sweepHandles, hlock n, hdel n, Bool.false_eq_true, if_false]
    exact sweepHandles_ok f hlock hdel tl (s.removeNode n)

/-- C6 amended: the handle-deletion block and the script-job block are each
wrapped in `try ... except: pass` and can never raise, whatever fails
inside them; but the leftover sweep is unprotected, so `cleanup` is
exception-free only when no unlock/delete of a leftover handle fails. -/
theorem pivot_c6_amended_cleanup (f : FailCfg) (s : Scene)
    (ph : Option String) (hlock : ∀ n, f.lockFails n = false)
    (hdel : ∀ n, f.deleteFails n = false) :
    ∃ s2, cleanupExc f s ph = Except.ok s2 := by
  unfold cleanupExc
  exact sweepHandles_ok f hlock hdel _ _

theorem pivot_c6_amended_witness :
    ∃ s2, cleanupExc jobFailCfg refHandleScene (some "Adjust_Pivot")
      = Except.ok s2 :=
  pivot_c6_amended_cleanup jobFailCfg refHandleScene (some "Adjust_Pivot")
    (fun _ => rfl) (fun _ => rfl)

/-! ## Scene-update lemmas -/

theorem lookup_map_if_ne {β : Type} (n m : String) (hmn : m ≠ n)
    (g : β → β) (l : List (String × β)) :
    List.lookup m (l.map fun p => if p.1 = n then (p.1, g p.2) else p)
      = List.lookup m l := by
  induction l with
  | nil => rfl
  | cons hd tl ih =>
    obtain ⟨k, v⟩ := hd
    rw [List.map_cons]
    by_cases h : k = n
    · subst h
      show List.lookup m ((if (k : String) = k then (k, g v) else (k, v)) :: _)
        = _
      rw [if_pos rfl, lookup_cons_ne m k (g v) _ hmn,
        lookup_cons_ne m k v tl hmn, ih]
    · show List.lookup m ((if k = n then (k, g v) else (k, v)) :: _) = _
      rw [if_neg h]
      by_cases h2 : m = k
      · subst h2
        rw [lookup_cons_self, lookup_cons_self]
      · rw [lookup_cons_ne m k v _ h2, lookup_cons_ne m k v tl h2, ih]

theorem getNode_setRotatePivot (s : Scene) (n : String) (v : Vec3) :
    (s.setRotatePivot n v).getNode n
      = (s.getNode n).map fun st => { st with rotatePivot := v } :=
  lookup_map_if n (fun st : NodeState => { st with rotatePivot := v }) s.nodes

theorem getNode_setRotatePivot_ne (s : Scene) (n m : String) (v : Vec3)
    (hmn : m ≠ n) : (s.setRotatePivot n v).getNode m = s.getNode m :=
  lookup_map_if_ne n m hmn
    (fun st : NodeState => { st with rotatePivot := v }) s.nodes

theorem getNode_setHasKeys (s : Scene) (n : String) :
    (s.setHasKeys n).getNode n
      = (s.getNode n).map fun st => { st with hasKeys := true } :=
  lookup_map_if n (fun st : NodeState => { st with hasKeys := true }) s.nodes

theorem is_pivot_connected_setRotatePivot (s : Scene) (n : String) (v : Vec3) :
    is_pivot_connected (s.setRotatePivot n v) n = is_pivot_connected s n := by
  unfold is_pivot_connected
  rw [getNode_setRotatePivot]
  cases s.getNode n <;> rfl

theorem is_pivot_connected_setHasKeys (s : Scene) (n : String) :
    is_pivot_connected (s.setHasKeys n) n = is_pivot_connected s n := by
  unfold is_pivot_connected
  rw [getNode_setHasKeys]
  cases s.getNode n <;> rfl

theorem pivot_driver_attr_setHasKeys (s : Scene) (n : String) :
    pivot_driver_attr (s.setHasKeys n) n = pivot_driver_attr s n := by
  unfold pivot_driver_attr
  rw [getNode_setHasKeys]
  cases s.getNode n <;> rfl

theorem getPlug_setPlug (s : Scene) (d : String) (v : ℚ) :
    (s.setPlug d v).getPlug d = v := by
  unfold Scene.getPlug Scene.setPlug
  rw [lookup_cons_self]
  rfl

theorem lookup_filter_keep_nodes (n : String) (l : List (String × NodeState))
    (st : NodeState) (h : List.lookup n l = some st)
    (hh : st.hasHandleAttr = false) :
    List.lookup n (l.filter fun p => !p.2.hasHandleAttr) = some st :=
  lookup_filter_val n (fun q => !q.hasHandleAttr) l st h (by simp [hh])

theorem getNode_cleanupBlock1_ne (s : Scene) (ph n : String) (hne : n ≠ ph) :
    (cleanupBlock1 s ph).getNode n = s.getNode n := by
  unfold cleanupBlock1
  split
  · show List.lookup n (s.nodes.filter fun p => !(p.1 == ph)) = _
    exact lookup_filter_ne n ph hne s.nodes
  · rfl

theorem getNode_cleanupBlock2 (s : Scene) (n : String) :
    (cleanupBlock2 s).getNode n = s.getNode n := by
  unfold cleanupBlock2
  split <;> rfl

theorem getNode_cleanupScene_keep (s : Scene) (ph n : String) (st : NodeState)
    (hn : s.getNode n = some st) (hh : st.hasHandleAttr = false)
    (hne : n ≠ ph) :
    (cleanupScene s ph).1.getNode n = some st := by
  show (cleanupSweepScene (cleanupBlock2 (cleanupBlock1 s ph))).getNode n
    = some st
  unfold cleanupSweepScene
  show List.lookup n ((cleanupBlock2 (cleanupBlock1 s ph)).nodes.filter
    fun p => !p.2.hasHandleAttr) = some st
  apply lookup_filter_keep_nodes n _ st _ hh
  show (cleanupBlock2 (cleanupBlock1 s ph)).getNode n = some st
  rw [getNode_cleanupBlock2, getNode_cleanupBlock1_ne s ph n hne]
  exact hn

theorem objExists_cleanupScene_handle (s : Scene) (ph : String)
    (hph : s.objExists ph = true) :
    (cleanupScene s ph).1.objExists ph = false := by
  show (cleanupSweepScene (cleanupBlock2 (cleanupBlock1 s ph))).objExists ph
    = false
  have h1 : (cleanupBlock1 s ph).getNode ph = none := by
    unfold cleanupBlock1
    rw [if_pos hph]
    exact lookup_filter_self ph s.nodes
  have h2 : (cleanupBlock2 (cleanupBlock1 s ph)).getNode ph = none := by
    rw [getNode_cleanupBlock2]
    exact h1
  unfold Scene.objExists
  have h3 : (cleanupSweepScene (cleanupBlock2 (cleanupBlock1 s ph))).getNode ph
      = none := by
    unfold cleanupSweepScene
    show List.lookup ph ((cleanupBlock2 (cleanupBlock1 s ph)).nodes.filter
      fun p => !p.2.hasHandleAttr) = none
    exact lookup_none_filter ph _ _ h2
  rw [h3]
  rfl

theorem cleanup_effects_benign (s : Scene) (ph : String) :
    ∀ e ∈ (cleanupScene s ph).2,
      isCreateNode e = false ∧ isMatchBake e = false := by
  intro e he
  simp only [cleanupScene] at he
  rw [List.mem_append, List.mem_append] at he
  rcases he with (h1 | h2) | h3
  · split at h1
    · rcases List.mem_cons.mp h1 with h | h
      · subst h; exact ⟨rfl, rfl⟩
      · rcases List.mem_cons.mp h with h | h
        · subst h; exact ⟨rfl, rfl⟩
        · exact absurd h (List.not_mem_nil e)
    · exact absurd h1 (List.not_mem_nil e)
  · split at h2
    · rcases List.mem_cons.mp h2 with h | h
      · subst h; exact ⟨rfl, rfl⟩
      · exact absurd h (List.not_mem_nil e)
    · exact absurd h2 (List.not_mem_nil e)
  · rw [List.mem_flatMap] at h3
    obtain ⟨n, _, hn⟩ := h3
    rcases List.mem_cons.mp hn with h | h
    · subst h; exact ⟨rfl, rfl⟩
    · rcases List.mem_cons.mp h with h | h
      · subst h; exact ⟨rfl, rfl⟩
      · exact absurd h (List.not_mem_nil e)

/-- C8: When the node going through the Edit Pivot commit has no keyframes
on its translate or rotate channels, `bakePivot` leaves the node with its
rotate pivot at the handle's position directly, performs the cleanup (the
handle is gone afterwards), and neither creates temporary baking nodes nor
calls the baking routine. -/
theorem pivot_c8_no_keys_direct_set (s : Scene) (node ph : String)
    (st phSt : NodeState)
    (hnode : s.getNode node = some st)
    (hph : s.getNode ph = some phSt)
    (hhandle : st.hasHandleAttr = false)
    (hkeys : st.hasKeys = false)
    (hne : node ≠ ph) :
    Scene.rotatePivotOf (bakePivot s node ph).1 node = phSt.translate ∧
    (∀ e ∈ (bakePivot s node ph).2,
      isCreateNode e = false ∧ isMatchBake e = false) ∧
    Scene.objExists (bakePivot s node ph).1 ph = false := by
  have hexn : s.objExists node = true := by
    unfold Scene.objExists
    rw [hnode]
    rfl
  have hexp : s.objExists ph = true := by
    unfold Scene.objExists
    rw [hph]
    rfl
  have hcond : (s.objExists ph && s.objExists node) = true := by
    rw [hexn, hexp]
    rfl
  have htr : s.translateOf ph = phSt.translate := by
    unfold Scene.translateOf
    rw [hph]
    rfl
  have hrp : s.rotatePivotOf node = st.rotatePivot := by
    unfold Scene.rotatePivotOf
    rw [hnode]
    rfl
  have hk : ((s.getNode node).map NodeState.hasKeys).getD false = false := by
    rw [hnode]
    exact hkeys
  simp only [bakePivot, hcond, if_true]
  by_cases heq : s.translateOf ph = s.rotatePivotOf node
  · rw [if_pos heq]
    refine ⟨?_, cleanup_effects_benign s ph, objExists_cleanupScene_handle s ph hexp⟩
    have hkeep := getNode_cleanupScene_keep s ph node st hnode hhandle hne
    unfold Scene.rotatePivotOf
    rw [hkeep]
    rw [htr, hrp] at heq
    exact heq.symm
  · rw [if_neg heq, hk]
    simp only [Bool.not_false, if_true]
    set s1 := s.setRotatePivot node (s.translateOf ph) with hs1
    have hupd : s1.getNode node
        = some { st with rotatePivot := s.translateOf ph } := by
      rw [hs1, getNode_setRotatePivot, hnode]
      rfl
    have hexp1 : s1.objExists ph = true := by
      unfold Scene.objExists
      rw [hs1, getNode_setRotatePivot_ne s node ph _ (Ne.symm hne), hph]
      rfl
    refine ⟨?_, ?_, objExists_cleanupScene_handle s1 ph hexp1⟩
    · have hkeep := getNode_cleanupScene_keep s1 ph node
        { st with rotatePivot := s.translateOf ph } hupd hhandle hne
      unfold Scene.rotatePivotOf
      rw [hkeep, htr]
      rfl
    · intro e he
      rcases List.mem_cons.mp he with h | h
      · subst h; exact ⟨rfl, rfl⟩
      · exact cleanup_effects_benign s1 ph e h

theorem pivot_c8_witness :
    Scene.rotatePivotOf (bakePivot noKeysScene "ctrl" "Adjust_Pivot").1 "ctrl"
      = Vec3.mk 2 3 4 :=
  (pivot_c8_no_keys_direct_set noKeysScene "ctrl" "Adjust_Pivot"
    { blankNode with rotatePivot := ⟨1, 1, 1⟩ }
    { blankNode with hasHandleAttr := true, translate := ⟨2, 3, 4⟩ }
    rfl rfl rfl rfl (by decide)).1

/-! ## Early-return and idempotence lemmas for `reset_pivot` -/

theorem reset_pivot_early_driver (s : Scene) (n d : String)
    (hsel : s.selection = [n]) (hconn : is_pivot_connected s n = true)
    (hdrv : pivot_driver_attr s n = some d)
    (hdef : s.getPlugDefault d = s.getPlug d) :
    reset_pivot s = (s, []) := by
  simp [reset_pivot, hsel, hconn, hdrv, hdef]

theorem reset_pivot_early_plain (s : Scene) (n : String)
    (hsel : s.selection = [n]) (hconn : is_pivot_connected s n = false)
    (hz : s.rotatePivotOf n = 0) :
    reset_pivot s = (s, []) := by
  simp [reset_pivot, hsel, hconn, hz]

theorem reset_pivot_full_plain (s : Scene) (n : String)
    (hsel : s.selection = [n]) (hconn : is_pivot_connected s n = false)
    (hz : ¬s.rotatePivotOf n = 0) :
    reset_pivot s = reset_pivot_bake s n none := by
  have hz2 : ¬s.rotatePivotOf n = Vec3.mk 0 0 0 := hz
  simp [reset_pivot, hsel, hconn, hz2]

theorem reset_pivot_full_driver (s : Scene) (n d : String)
    (hsel : s.selection = [n]) (hconn : is_pivot_connected s n = true)
    (hdrv : pivot_driver_attr s n = some d)
    (hdef : ¬s.getPlugDefault d = s.getPlug d) :
    reset_pivot s
      = reset_pivot_bake s n (some (d, s.getPlug d, s.getPlugDefault d)) := by
  simp [reset_pivot, hsel, hconn, hdrv, hdef]

theorem rotatePivotOf_after_reset (s : Scene) (n : String) :
    Scene.rotatePivotOf (((s.setRotatePivot n 0).setHasKeys n).selectNode n) n
      = 0 := by
  show Scene.rotatePivotOf ((s.setRotatePivot n 0).setHasKeys n) n = 0
  unfold Scene.rotatePivotOf
  rw [getNode_setHasKeys, getNode_setRotatePivot]
  cases s.getNode n <;> rfl

theorem reset_pivot_bake_plain_again (s : Scene) (n : String)
    (hconn : is_pivot_connected s n = false) :
    reset_pivot ((reset_pivot_bake s n none).1)
      = ((reset_pivot_bake s n none).1, []) := by
  apply reset_pivot_early_plain _ n
  · rfl
  · show is_pivot_connected ((s.setRotatePivot n 0).setHasKeys n) n = false
    rw [is_pivot_connected_setHasKeys, is_pivot_connected_setRotatePivot]
    exact hconn
  · exact rotatePivotOf_after_reset s n

theorem reset_pivot_bake_driver_again (s : Scene) (n d : String)
    (hconn : is_pivot_connected s n = true)
    (hdrv : pivot_driver_attr s n = some d) :
    reset_pivot
        ((reset_pivot_bake s n (some (d, s.getPlug d, s.getPlugDefault d))).1)
      = ((reset_pivot_bake s n
          (some (d, s.getPlug d, s.getPlugDefault d))).1, []) := by
  apply reset_pivot_early_driver _ n d
  · rfl
  · show is_pivot_connected
      ((((s.setPlug d (s.getPlugDefault d)).setPlug d
        (s.getPlug d)).setPlug d (s.getPlugDefault d)).setHasKeys n) n = true
    rw [is_pivot_connected_setHasKeys]
    exact hconn
  · show pivot_driver_attr
      ((((s.setPlug d (s.getPlugDefault d)).setPlug d
        (s.getPlug d)).setPlug d (s.getPlugDefault d)).setHasKeys n) n = some d
    rw [pivot_driver_attr_setHasKeys]
    exact hdrv
  · show s.getPlugDefault d
      = Scene.getPlug (((s.setPlug d (s.getPlugDefault d)).setPlug d
        (s.getPlug d)).setPlug d (s.getPlugDefault d)) d
    rw [getPlug_setPlug]

/-- C10: On a single selected node whose pivot is already at its reset
value — driver plug already at its default for a driven pivot, or
`rotatePivot` already `(0,0,0)` otherwise — `reset_pivot` returns with no
effect and the scene untouched; and on any scene with a single selected
node, resetting twice leaves the same scene as resetting once. -/
theorem pivot_c10_reset_already_reset (s : Scene) (n : String)
    (hsel : s.selection = [n]) :
    (∀ d : String, is_pivot_connected s n = true →
      pivot_driver_attr s n = some d →
      s.getPlugDefault d = s.getPlug d → reset_pivot s = (s, [])) ∧
    (is_pivot_connected s n = false → s.rotatePivotOf n = 0 →
      reset_pivot s = (s, [])) ∧
    (reset_pivot (reset_pivot s).1).1 = (reset_pivot s).1 := by
  refine ⟨fun d hconn hdrv hdef =>
      reset_pivot_early_driver s n d hsel hconn hdrv hdef,
    fun hconn hz => reset_pivot_early_plain s n hsel hconn hz, ?_⟩
  cases hconn : is_pivot_connected s n with
  | false =>
    by_cases hz : s.rotatePivotOf n = 0
    · simp [reset_pivot_early_plain s n hsel hconn hz]
    · rw [reset_pivot_full_plain s n hsel hconn hz,
        reset_pivot_bake_plain_again s n hconn]
  | true =>
    cases hdrv : pivot_driver_attr s n with
    | none =>
      have h1 : reset_pivot s
          = (s,
            [Effect.warning "Pivot attribute is connected, unable to edit."]) := by
        simp [reset_pivot, hsel, hconn, hdrv]
      simp [h1]
    | some d =>
      by_cases hdef : s.getPlugDefault d = s.getPlug d
      · simp [reset_pivot_early_driver s n d hsel hconn hdrv hdef]
      · rw [reset_pivot_full_driver s n d hsel hconn hdrv hdef,
          reset_pivot_bake_driver_again s n d hconn hdrv]

theorem pivot_c10_witness :
    reset_pivot zeroPivotScene = (zeroPivotScene, []) :=
  (pivot_c10_reset_already_reset zeroPivotScene "ctrl" rfl).2.1 rfl rfl

end MlPivot
